import Mathlib

/-!
Shallow embedding of the TestFramework renderer core
(TestFramework/Renderer/Renderer.h of JoltPhysics) and its documented frame
lifecycle.  Machine floats are embedded as real numbers, the `JPH_ASSERT`
fatal-assertion path of the accessors as an `Except` error value, and the
frame-lifecycle state machine (whose out-of-line definitions live in a
Renderer.cpp that is not among the sources) is modelled from the spec.
-/

/-- High-precision 3-vector (`RVec3` of the source), embedded over the reals. -/
abbrev RVec3 := ℝ × ℝ × ℝ

/-- Single-precision 3-vector (`Vec3` of the source), embedded over the reals. -/
abbrev Vec3 := ℝ × ℝ × ℝ

/-- Degree-to-radian conversion used by the source (`DegreesToRadians(70.0f)`). -/
noncomputable def DegreesToRadians (inDegrees : ℝ) : ℝ := inDegrees * (Real.pi / 180)

/-- Camera setup: `struct CameraState` of Renderer.h. -/
structure CameraState where
  mPos : RVec3
  mForward : Vec3
  mUp : Vec3
  mFOVY : ℝ

/-- The default constructor of `CameraState`:
`CameraState() : mPos(RVec3::sZero()), mForward(0, 0, -1), mUp(0, 1, 0), mFOVY(DegreesToRadians(70.0f))`. -/
noncomputable def CameraState.default : CameraState :=
  { mPos := (0, 0, 0)
    mForward := (0, 0, -1)
    mUp := (0, 1, 0)
    mFOVY := DegreesToRadians 70 }

/-- Modelled from the spec: the `Frustum` class lives in Renderer/Frustum.h,
which is not among the sources.  Per §3 it is derived from a projection and
per §8 it carries a near-plane distance, a far-plane distance and angular
extents; we record those quantities directly. -/
structure Frustum where
  nearDist : ℝ
  farDist : ℝ
  vExtent : ℝ
  hExtent : ℝ

/-- Failure modes of the renderer core.  `AlreadyInFrame`, `NotInFrame` and
`InvalidCameraConfig` are the named failures of spec §4.1/§4.4/§8;
`AssertionFailed` models the `JPH_ASSERT(mInFrame)` fatal-assertion path of
the frame-scoped accessors in Renderer.h. -/
inductive RendererError where
  | AlreadyInFrame
  | NotInFrame
  | InvalidCameraConfig
  | AssertionFailed
  deriving DecidableEq, Repr

/-- State of `class Renderer` (Renderer.h lines 135-143): window size, Y-sign
convention, in-frame flag, camera state, base offset, both frustums and the
frame index.  `mPendingResize` is modelled from the spec: §4.4 requires a
resize arriving while in-frame to be queued and applied at the next
EndFrame/BeginFrame boundary; the queue itself is not visible in the header. -/
structure Renderer where
  mWindowWidth : ℤ
  mWindowHeight : ℤ
  mPerspectiveYSign : ℝ
  mInFrame : Bool
  mCameraState : CameraState
  mBaseOffset : RVec3
  mCameraFrustum : Frustum
  mLightFrustum : Frustum
  mFrameIndex : ℕ
  mPendingResize : Option (ℤ × ℤ)

namespace Renderer

/-- `static const uint cFrameCount = 2` — how many frames our pipeline is. -/
def cFrameCount : ℕ := 2

/-- `static const uint cShadowMapSize = 4096` — the shadow map is
`cShadowMapSize x cShadowMapSize` pixels. -/
def cShadowMapSize : ℕ := 4096

/-- The freshly constructed renderer, from the default member initializers of
Renderer.h: 1920x1080 window, Y sign +1 (DX convention), not in frame,
default camera, zero base offset, frame index 0. -/
noncomputable def init : Renderer :=
  { mWindowWidth := 1920
    mWindowHeight := 1080
    mPerspectiveYSign := 1
    mInFrame := false
    mCameraState := CameraState.default
    mBaseOffset := (0, 0, 0)
    mCameraFrustum := ⟨0, 0, 0, 0⟩
    mLightFrustum := ⟨0, 0, 0, 0⟩
    mFrameIndex := 0
    mPendingResize := none }

/-- `GetCameraState`: `JPH_ASSERT(mInFrame); return mCameraState;`. -/
def GetCameraState (s : Renderer) : Except RendererError CameraState :=
  if s.mInFrame then .ok s.mCameraState else .error .AssertionFailed

/-- `GetCameraFrustum`: `JPH_ASSERT(mInFrame); return mCameraFrustum;`. -/
def GetCameraFrustum (s : Renderer) : Except RendererError Frustum :=
  if s.mInFrame then .ok s.mCameraFrustum else .error .AssertionFailed

/-- `GetLightFrustum`: `JPH_ASSERT(mInFrame); return mLightFrustum;`. -/
def GetLightFrustum (s : Renderer) : Except RendererError Frustum :=
  if s.mInFrame then .ok s.mLightFrustum else .error .AssertionFailed

/-- `GetCurrentFrameIndex`: `JPH_ASSERT(mInFrame); return mFrameIndex;`. -/
def GetCurrentFrameIndex (s : Renderer) : Except RendererError ℕ :=
  if s.mInFrame then .ok s.mFrameIndex else .error .AssertionFailed

/-- `GetBaseOffset`: `return mBaseOffset;`. -/
def GetBaseOffset (s : Renderer) : RVec3 := s.mBaseOffset

/-- `SetBaseOffset`: `mBaseOffset = inOffset;`. -/
def SetBaseOffset (inOffset : RVec3) (s : Renderer) : Renderer :=
  { s with mBaseOffset := inOffset }

/-- `GetWindowWidth`: `return mWindowWidth;`. -/
def GetWindowWidth (s : Renderer) : ℤ := s.mWindowWidth

/-- `GetWindowHeight`: `return mWindowHeight;`. -/
def GetWindowHeight (s : Renderer) : ℤ := s.mWindowHeight

end Renderer

/-- Near-plane distance of the perspective frustum.  Modelled from the spec:
§8 only requires the near distance to be strictly below the far distance; the
concrete value is not specified by the sources. -/
noncomputable def cNearPlane : ℝ := 1 / 100

/-- Far-plane distance of the perspective frustum.  Modelled from the spec:
see `cNearPlane`. -/
noncomputable def cFarPlane : ℝ := 1000

open Classical in
/-- Modelled from the spec: §4.1 Frustum Calculator.  The computation itself
lives outside the sources; per the spec it projects a symmetric perspective
frustum from the vertical FOV and the aspect ratio `width/height`, deriving
the horizontal extent as `2·atan(tan(FOVY/2)·aspect)`, and rejects a
degenerate FOV (≤ 0 or ≥ π) with `InvalidCameraConfig`, never clamping it. -/
noncomputable def ComputeCameraFrustum (c : CameraState) (w h : ℤ) :
    Except RendererError Frustum :=
  if c.mFOVY ≤ 0 ∨ Real.pi ≤ c.mFOVY then .error .InvalidCameraConfig
  else
    .ok { nearDist := cNearPlane
          farDist := cFarPlane
          vExtent := c.mFOVY
          hExtent := 2 * Real.arctan (Real.tan (c.mFOVY / 2) * ((w : ℝ) / (h : ℝ))) }

/-- Modelled from the spec: §4.1 leaves the light-frustum fitting algorithm
open (§9 calls it backend/scene-dependent); it is derived from the camera
frustum, which is all the claims need. -/
def ComputeLightFrustum (camFrustum : Frustum) : Frustum := camFrustum

namespace Renderer

/-- Modelled from the spec: `Renderer::BeginFrame` is defined in a
Renderer.cpp that is not among the sources.  Per §4.4 it fails with
`AlreadyInFrame` while in-frame, otherwise stores the camera state,
recomputes the camera and light frustums (propagating `InvalidCameraConfig`
for a degenerate camera, §4.1/§7b) and sets the in-frame flag. -/
noncomputable def BeginFrame (inCamera : CameraState) (inWorldScale : ℝ) (s : Renderer) :
    Except RendererError Renderer :=
  if s.mInFrame then .error .AlreadyInFrame
  else
    match ComputeCameraFrustum inCamera s.mWindowWidth s.mWindowHeight with
    | .error e => .error e
    | .ok f =>
        .ok { s with
                mInFrame := true
                mCameraState := inCamera
                mCameraFrustum := f
                mLightFrustum := ComputeLightFrustum f }

/-- Modelled from the spec: applying a queued window resize at a frame
boundary (§4.4, §5 deferred resize). -/
def ApplyPendingResize (s : Renderer) : Renderer :=
  match s.mPendingResize with
  | none => s
  | some (w, h) => { s with mWindowWidth := w, mWindowHeight := h, mPendingResize := none }

/-- Modelled from the spec: `Renderer::EndFrame` is defined outside the
sources.  Per §4.4 it fails with `NotInFrame` without a matching BeginFrame,
clears the in-frame flag, rotates the frame index modulo the pipeline depth
(so that, starting from the header initial index 0, the k-th frame observes
index `(k-1) % cFrameCount`, matching the §8 property and scenario), and
applies any resize queued during the frame at this boundary. -/
def EndFrame (s : Renderer) : Except RendererError Renderer :=
  if s.mInFrame then
    .ok (ApplyPendingResize
          { s with mInFrame := false, mFrameIndex := (s.mFrameIndex + 1) % cFrameCount })
  else .error .NotInFrame

/-- Modelled from the spec: `Renderer::OnWindowResize` is defined outside the
sources.  Per §4.4 it updates the window dimensions, but a resize arriving
while in-frame is queued and applied at the next EndFrame/BeginFrame boundary
instead of corrupting in-flight state. -/
def OnWindowResize (inWidth inHeight : ℤ) (s : Renderer) : Renderer :=
  if s.mInFrame then { s with mPendingResize := some (inWidth, inHeight) }
  else { s with mWindowWidth := inWidth, mWindowHeight := inHeight, mPendingResize := none }

end Renderer

/-- The renderer state after `n` complete BeginFrame/EndFrame pairs with the
default camera, starting from a freshly constructed renderer. -/
noncomputable def stateAfterPairs : ℕ → Except RendererError Renderer
  | 0 => .ok Renderer.init
  | n + 1 =>
    match stateAfterPairs n with
    | .error e => .error e
    | .ok s =>
      match Renderer.BeginFrame CameraState.default 1 s with
      | .error e => .error e
      | .ok s2 => Renderer.EndFrame s2

/-- The frame index observed by `GetCurrentFrameIndex` during the k-th frame:
after `k - 1` complete pairs, begin the k-th frame and query the index. -/
noncomputable def frameIndexAt (k : ℕ) : Except RendererError ℕ :=
  match stateAfterPairs (k - 1) with
  | .error e => .error e
  | .ok s =>
    match Renderer.BeginFrame CameraState.default 1 s with
    | .error e => .error e
    | .ok s2 => Renderer.GetCurrentFrameIndex s2

/-- Cross product of two 3-vectors, used to state that forward and up are
non-parallel (spec §3: CameraState invariant). -/
def cross (a b : Vec3) : Vec3 :=
  (a.2.1 * b.2.2 - a.2.2 * b.2.1,
   a.2.2 * b.1 - a.1 * b.2.2,
   a.1 * b.2.1 - a.2.1 * b.1)

/-- Two vectors are non-parallel when their cross product is nonzero. -/
def NonParallel (a b : Vec3) : Prop := cross a b ≠ (0, 0, 0)

-- Helper lemmas ------------------------------------------------------------

lemma default_mFOVY_pos : 0 < CameraState.default.mFOVY := by
  show 0 < DegreesToRadians 70
  unfold DegreesToRadians
  positivity

lemma default_mFOVY_lt_pi : CameraState.default.mFOVY < Real.pi := by
  show DegreesToRadians 70 < Real.pi
  unfold DegreesToRadians
  nlinarith [Real.pi_pos]

lemma ComputeCameraFrustum_ok (c : CameraState) (w h : ℤ)
    (h1 : 0 < c.mFOVY) (h2 : c.mFOVY < Real.pi) :
    ComputeCameraFrustum c w h =
      .ok { nearDist := cNearPlane
            farDist := cFarPlane
            vExtent := c.mFOVY
            hExtent := 2 * Real.arctan (Real.tan (c.mFOVY / 2) * ((w : ℝ) / (h : ℝ))) } := by
  unfold ComputeCameraFrustum
  rw [if_neg]
  push_neg
  exact ⟨h1, h2⟩

lemma BeginFrame_ok (c : CameraState) (ws : ℝ) (s : Renderer)
    (hin : s.mInFrame = false) (h1 : 0 < c.mFOVY) (h2 : c.mFOVY < Real.pi) :
    ∃ s2, Renderer.BeginFrame c ws s = .ok s2 ∧
      s2.mInFrame = true ∧
      s2.mCameraState = c ∧
      s2.mFrameIndex = s.mFrameIndex ∧
      s2.mWindowWidth = s.mWindowWidth ∧
      s2.mWindowHeight = s.mWindowHeight ∧
      s2.mBaseOffset = s.mBaseOffset ∧
      s2.mPendingResize = s.mPendingResize := by
  have heq : Renderer.BeginFrame c ws s =
      .ok { s with
              mInFrame := true
              mCameraState := c
              mCameraFrustum :=
                { nearDist := cNearPlane
                  farDist := cFarPlane
                  vExtent := c.mFOVY
                  hExtent := 2 * Real.arctan (Real.tan (c.mFOVY / 2) *
                    ((s.mWindowWidth : ℝ) / (s.mWindowHeight : ℝ))) }
              mLightFrustum :=
                ComputeLightFrustum
                  { nearDist := cNearPlane
                    farDist := cFarPlane
                    vExtent := c.mFOVY
                    hExtent := 2 * Real.arctan (Real.tan (c.mFOVY / 2) *
                      ((s.mWindowWidth : ℝ) / (s.mWindowHeight : ℝ))) } } := by
    unfold Renderer.BeginFrame
    rw [hin, ComputeCameraFrustum_ok c s.mWindowWidth s.mWindowHeight h1 h2]
    rfl
  exact ⟨_, heq, rfl, rfl, rfl, rfl, rfl, rfl, rfl⟩

lemma EndFrame_ok (s : Renderer) (hin : s.mInFrame = true) :
    Renderer.EndFrame s =
      .ok (Renderer.ApplyPendingResize
            { s with
                mInFrame := false
                mFrameIndex := (s.mFrameIndex + 1) % Renderer.cFrameCount }) := by
  simp [Renderer.EndFrame, hin]

lemma ApplyPendingResize_proj (s : Renderer) :
    (Renderer.ApplyPendingResize s).mInFrame = s.mInFrame ∧
    (Renderer.ApplyPendingResize s).mFrameIndex = s.mFrameIndex ∧
    (Renderer.ApplyPendingResize s).mBaseOffset = s.mBaseOffset := by
  unfold Renderer.ApplyPendingResize
  cases h : s.mPendingResize with
  | none => exact ⟨rfl, rfl, rfl⟩
  | some wh =>
    obtain ⟨w, h2⟩ := wh
    exact ⟨rfl, rfl, rfl⟩

lemma stateAfterPairs_ok (n : ℕ) :
    ∃ s, stateAfterPairs n = .ok s ∧ s.mInFrame = false ∧
      s.mFrameIndex = n % Renderer.cFrameCount := by
  induction n with
  | zero => exact ⟨Renderer.init, rfl, rfl, rfl⟩
  | succ n ih =>
    obtain ⟨s, hs, hin, hidx⟩ := ih
    obtain ⟨s2, hb, hbin, _, hbidx, _, _, _, _⟩ :=
      BeginFrame_ok CameraState.default 1 s hin default_mFOVY_pos default_mFOVY_lt_pi
    refine ⟨Renderer.ApplyPendingResize
        { s2 with
            mInFrame := false
            mFrameIndex := (s2.mFrameIndex + 1) % Renderer.cFrameCount },
      ?_, ?_, ?_⟩
    · show stateAfterPairs (n + 1) = _
      unfold stateAfterPairs
      simp only [hs, hb]
      exact EndFrame_ok s2 hbin
    · exact (ApplyPendingResize_proj _).1
    · rw [(ApplyPendingResize_proj _).2.1]
      show (s2.mFrameIndex + 1) % Renderer.cFrameCount = _
      rw [hbidx, hidx]
      unfold Renderer.cFrameCount
      omega

-- Claim theorems ------------------------------------------------------------

/-- C1: in every renderer state whose in-frame flag is not set, each of the
frame-scoped accessors GetCameraState, GetCameraFrustum, GetLightFrustum and
GetCurrentFrameIndex takes the fatal-assertion path instead of returning a
default-constructed value, while in any in-frame state each returns its
stored value without fault. -/
theorem frame_scoped_accessors_contract (s t : Renderer)
    (hout : s.mInFrame = false) (hin : t.mInFrame = true) :
    Renderer.GetCameraState s = .error .AssertionFailed ∧
    Renderer.GetCameraFrustum s = .error .AssertionFailed ∧
    Renderer.GetLightFrustum s = .error .AssertionFailed ∧
    Renderer.GetCurrentFrameIndex s = .error .AssertionFailed ∧
    Renderer.GetCameraState t = .ok t.mCameraState ∧
    Renderer.GetCameraFrustum t = .ok t.mCameraFrustum ∧
    Renderer.GetLightFrustum t = .ok t.mLightFrustum ∧
    Renderer.GetCurrentFrameIndex t = .ok t.mFrameIndex := by
  unfold Renderer.GetCameraState Renderer.GetCameraFrustum
    Renderer.GetLightFrustum Renderer.GetCurrentFrameIndex
  rw [hout, hin]
  simp

/-- Witness for C1: the fresh renderer (before any BeginFrame) faults on all
four accessors, and a concrete in-frame state returns its stored values. -/
theorem frame_scoped_accessors_contract_witness :
    Renderer.GetCameraState Renderer.init = .error .AssertionFailed ∧
    Renderer.GetCameraFrustum Renderer.init = .error .AssertionFailed ∧
    Renderer.GetLightFrustum Renderer.init = .error .AssertionFailed ∧
    Renderer.GetCurrentFrameIndex Renderer.init = .error .AssertionFailed ∧
    Renderer.GetCameraState { Renderer.init with mInFrame := true } = .ok CameraState.default ∧
    Renderer.GetCameraFrustum { Renderer.init with mInFrame := true } = .ok ⟨0, 0, 0, 0⟩ ∧
    Renderer.GetLightFrustum { Renderer.init with mInFrame := true } = .ok ⟨0, 0, 0, 0⟩ ∧
    Renderer.GetCurrentFrameIndex { Renderer.init with mInFrame := true } = .ok 0 :=
  frame_scoped_accessors_contract Renderer.init { Renderer.init with mInFrame := true } rfl rfl

/-- C2: BeginFrame while already in-frame fails with AlreadyInFrame, EndFrame
with no outstanding BeginFrame fails with NotInFrame, and a well-nested
BeginFrame followed by EndFrame sets and then clears the in-frame flag. -/
theorem begin_end_nesting (c : CameraState) (ws : ℝ) (sIn sOut : Renderer)
    (hin : sIn.mInFrame = true) (hout : sOut.mInFrame = false)
    (h1 : 0 < c.mFOVY) (h2 : c.mFOVY < Real.pi) :
    Renderer.BeginFrame c ws sIn = .error .AlreadyInFrame ∧
    Renderer.EndFrame sOut = .error .NotInFrame ∧
    ∃ s2, Renderer.BeginFrame c ws sOut = .ok s2 ∧ s2.mInFrame = true ∧
      ∃ s3, Renderer.EndFrame s2 = .ok s3 ∧ s3.mInFrame = false := by
  refine ⟨?_, ?_, ?_⟩
  · unfold Renderer.BeginFrame
    rw [hin]
    rfl
  · unfold Renderer.EndFrame
    rw [hout]
    rfl
  · obtain ⟨s2, hb, hbin, _, _, _, _, _, _⟩ := BeginFrame_ok c ws sOut hout h1 h2
    exact ⟨s2, hb, hbin, _, EndFrame_ok s2 hbin, (ApplyPendingResize_proj _).1⟩

/-- Witness for C2: concrete in-frame and idle states with the default
camera. -/
theorem begin_end_nesting_witness :
    Renderer.BeginFrame CameraState.default 1 { Renderer.init with mInFrame := true } =
      .error .AlreadyInFrame ∧
    Renderer.EndFrame Renderer.init = .error .NotInFrame ∧
    ∃ s2, Renderer.BeginFrame CameraState.default 1 Renderer.init = .ok s2 ∧
      s2.mInFrame = true ∧
      ∃ s3, Renderer.EndFrame s2 = .ok s3 ∧ s3.mInFrame = false :=
  begin_end_nesting CameraState.default 1 { Renderer.init with mInFrame := true }
    Renderer.init rfl rfl default_mFOVY_pos default_mFOVY_lt_pi

/-- C3: cFrameCount equals 2 and, starting from a freshly constructed
renderer, the k-th BeginFrame/EndFrame cycle observes frame index
(k-1) mod cFrameCount via GetCurrentFrameIndex. -/
theorem frame_index_cycles (k : ℕ) (hk : 1 ≤ k) :
    Renderer.cFrameCount = 2 ∧
    frameIndexAt k = .ok ((k - 1) % Renderer.cFrameCount) := by
  refine ⟨rfl, ?_⟩
  obtain ⟨s, hs, hin, hidx⟩ := stateAfterPairs_ok (k - 1)
  obtain ⟨s2, hb, hbin, _, hbidx, _, _, _, _⟩ :=
    BeginFrame_ok CameraState.default 1 s hin default_mFOVY_pos default_mFOVY_lt_pi
  unfold frameIndexAt
  simp only [hs, hb]
  unfold Renderer.GetCurrentFrameIndex
  rw [hbin]
  simp only [if_true]
  rw [hbidx, hidx]

/-- Witness for C3: the third cycle observes index (3-1) mod 2 = 0, after
cycles one and two observed 0 and 1. -/
theorem frame_index_cycles_witness :
    1 ≤ 3 ∧ (Renderer.cFrameCount = 2 ∧
      frameIndexAt 3 = .ok ((3 - 1) % Renderer.cFrameCount)) :=
  ⟨by decide, frame_index_cycles 3 (by decide)⟩

/-- C4: a degenerate vertical FOV (≤ 0 or ≥ π) is rejected with
InvalidCameraConfig by the frustum computation and hence by BeginFrame at the
point of construction of the camera setup, never clamped into range. -/
theorem degenerate_fov_rejected (c : CameraState)
    (hdeg : c.mFOVY ≤ 0 ∨ Real.pi ≤ c.mFOVY) :
    (∀ w h : ℤ, ComputeCameraFrustum c w h = .error .InvalidCameraConfig) ∧
    (∀ (ws : ℝ) (s : Renderer), s.mInFrame = false →
      Renderer.BeginFrame c ws s = .error .InvalidCameraConfig) := by
  have hcf : ∀ w h : ℤ, ComputeCameraFrustum c w h = .error .InvalidCameraConfig := by
    intro w h
    unfold ComputeCameraFrustum
    rw [if_pos hdeg]
  refine ⟨hcf, ?_⟩
  intro ws s hsin
  unfold Renderer.BeginFrame
  rw [hsin, hcf]
  rfl

/-- Witness for C4: a camera whose FOV is 4 radians (≥ π) is rejected both by
the frustum computation and by BeginFrame on a fresh renderer. -/
theorem degenerate_fov_rejected_witness :
    ComputeCameraFrustum { CameraState.default with mFOVY := 4 } 1920 1080 =
      .error .InvalidCameraConfig ∧
    Renderer.BeginFrame { CameraState.default with mFOVY := 4 } 1 Renderer.init =
      .error .InvalidCameraConfig := by
  have h := degenerate_fov_rejected { CameraState.default with mFOVY := 4 }
    (Or.inr Real.pi_le_four)
  exact ⟨h.1 1920 1080, h.2 1 Renderer.init rfl⟩

/-- C5: a resize arriving while in-frame leaves the reported window size and
the in-flight camera/frustum state of the current frame unchanged; the
queued size is applied at the EndFrame boundary. -/
theorem resize_in_frame_deferred (s : Renderer) (w h : ℤ) (hin : s.mInFrame = true) :
    Renderer.GetWindowWidth (Renderer.OnWindowResize w h s) = Renderer.GetWindowWidth s ∧
    Renderer.GetWindowHeight (Renderer.OnWindowResize w h s) = Renderer.GetWindowHeight s ∧
    (Renderer.OnWindowResize w h s).mCameraFrustum = s.mCameraFrustum ∧
    (Renderer.OnWindowResize w h s).mLightFrustum = s.mLightFrustum ∧
    (Renderer.OnWindowResize w h s).mCameraState = s.mCameraState ∧
    ∃ s2, Renderer.EndFrame (Renderer.OnWindowResize w h s) = .ok s2 ∧
      Renderer.GetWindowWidth s2 = w ∧ Renderer.GetWindowHeight s2 = h := by
  have hres : Renderer.OnWindowResize w h s = { s with mPendingResize := some (w, h) } := by
    unfold Renderer.OnWindowResize
    rw [hin]
    rfl
  rw [hres]
  refine ⟨rfl, rfl, rfl, rfl, rfl, ?_⟩
  have hin2 : ({ s with mPendingResize := some (w, h) } : Renderer).mInFrame = true := hin
  exact ⟨_, EndFrame_ok _ hin2, rfl, rfl⟩

/-- Witness for C5: resizing to 800x600 during a frame on a renderer that
started at 1920x1080. -/
theorem resize_in_frame_deferred_witness :
    Renderer.GetWindowWidth
      (Renderer.OnWindowResize 800 600 { Renderer.init with mInFrame := true }) = 1920 ∧
    Renderer.GetWindowHeight
      (Renderer.OnWindowResize 800 600 { Renderer.init with mInFrame := true }) = 1080 ∧
    (Renderer.OnWindowResize 800 600 { Renderer.init with mInFrame := true }).mCameraFrustum =
      ⟨0, 0, 0, 0⟩ ∧
    (Renderer.OnWindowResize 800 600 { Renderer.init with mInFrame := true }).mLightFrustum =
      ⟨0, 0, 0, 0⟩ ∧
    (Renderer.OnWindowResize 800 600 { Renderer.init with mInFrame := true }).mCameraState =
      CameraState.default ∧
    ∃ s2, Renderer.EndFrame
        (Renderer.OnWindowResize 800 600 { Renderer.init with mInFrame := true }) = .ok s2 ∧
      Renderer.GetWindowWidth s2 = 800 ∧ Renderer.GetWindowHeight s2 = 600 :=
  resize_in_frame_deferred { Renderer.init with mInFrame := true } 800 600 rfl

/-- C6: GetBaseOffset after SetBaseOffset returns exactly the offset that was
set, and no other renderer operation (BeginFrame, EndFrame, OnWindowResize)
modifies the stored base offset. -/
theorem base_offset_get_set_persist (v : RVec3) (s : Renderer) (c : CameraState)
    (ws : ℝ) (w h : ℤ) :
    Renderer.GetBaseOffset (Renderer.SetBaseOffset v s) = v ∧
    Except.map Renderer.GetBaseOffset (Renderer.BeginFrame c ws s) =
      Except.map (fun x => Renderer.GetBaseOffset s) (Renderer.BeginFrame c ws s) ∧
    Except.map Renderer.GetBaseOffset (Renderer.EndFrame s) =
      Except.map (fun x => Renderer.GetBaseOffset s) (Renderer.EndFrame s) ∧
    Renderer.GetBaseOffset (Renderer.OnWindowResize w h s) = Renderer.GetBaseOffset s := by
  refine ⟨rfl, ?_, ?_, ?_⟩
  · unfold Renderer.BeginFrame
    cases hsf : s.mInFrame with
    | true => rfl
    | false =>
      cases hcf : ComputeCameraFrustum c s.mWindowWidth s.mWindowHeight with
      | error e => rfl
      | ok f => simp [hcf, Except.map, Renderer.GetBaseOffset]
  · unfold Renderer.EndFrame
    cases hsf : s.mInFrame with
    | true =>
      simp only [if_true, Except.map]
      rw [Renderer.GetBaseOffset, (ApplyPendingResize_proj _).2.2]
      rfl
    | false => rfl
  · unfold Renderer.OnWindowResize
    cases hsf : s.mInFrame with
    | true => rfl
    | false => rfl

/-- C7 counterexample: for the spec scenario (camera at origin, forward
(0,0,-1), up (0,1,0), FOVY 70 degrees, 1920x1080 window) the computed
frustum has vertical half-angle 35 degrees — not within even one degree of
the 38.16 degrees asserted by the claim. -/
theorem scenario_half_angle_not_38_16 :
    Except.map (fun f => f.vExtent / 2)
        (ComputeCameraFrustum CameraState.default 1920 1080) =
      .ok (DegreesToRadians 35) ∧
    ¬ |DegreesToRadians 35 - DegreesToRadians 38.16| ≤ DegreesToRadians 1 := by
  constructor
  · rw [ComputeCameraFrustum_ok CameraState.default 1920 1080
      default_mFOVY_pos default_mFOVY_lt_pi]
    simp only [Except.map, Except.ok.injEq]
    show DegreesToRadians 70 / 2 = DegreesToRadians 35
    unfold DegreesToRadians
    ring
  · rw [not_le]
    unfold DegreesToRadians
    rw [show (35 : ℝ) * (Real.pi / 180) - 38.16 * (Real.pi / 180) =
          -(3.16 * (Real.pi / 180)) by ring]
    rw [abs_neg, abs_of_pos (by positivity)]
    nlinarith [Real.pi_pos]

/-- C7 (amended): for every valid camera (FOVY strictly between 0 and π,
forward and up non-parallel) and strictly positive window dimensions the
computed frustum has near-plane distance strictly below the far-plane
distance and horizontal angular extent 2·atan(tan(FOVY/2)·(width/height));
for the scenario camera with FOVY 70 degrees and a 1920x1080 window the
aspect is within 0.001 of 1.778 and the vertical half-angle is 35 degrees
(not the 38.16 degrees the claim quotes). -/
theorem camera_frustum_properties (c : CameraState) (w h : ℤ)
    (h1 : 0 < c.mFOVY) (h2 : c.mFOVY < Real.pi)
    (hnp : NonParallel c.mForward c.mUp) (hw : 0 < w) (hh : 0 < h) :
    (∃ f, ComputeCameraFrustum c w h = .ok f ∧
       f.nearDist < f.farDist ∧
       f.hExtent = 2 * Real.arctan (Real.tan (c.mFOVY / 2) * ((w : ℝ) / (h : ℝ)))) ∧
    (∃ f, ComputeCameraFrustum CameraState.default 1920 1080 = .ok f ∧
       |((1920 : ℝ) / 1080) - 1.778| ≤ 1 / 1000 ∧
       f.vExtent / 2 = DegreesToRadians 35) := by
  constructor
  · refine ⟨_, ComputeCameraFrustum_ok c w h h1 h2, ?_, rfl⟩
    show cNearPlane < cFarPlane
    unfold cNearPlane cFarPlane
    norm_num
  · refine ⟨_, ComputeCameraFrustum_ok CameraState.default 1920 1080
      default_mFOVY_pos default_mFOVY_lt_pi, ?_, ?_⟩
    · rw [abs_le]
      constructor <;> norm_num
    · show CameraState.default.mFOVY / 2 = DegreesToRadians 35
      show DegreesToRadians 70 / 2 = DegreesToRadians 35
      unfold DegreesToRadians
      ring

lemma default_forward_up_nonparallel :
    NonParallel CameraState.default.mForward CameraState.default.mUp := by
  unfold NonParallel cross CameraState.default
  simp only [Prod.ext_iff, not_and]
  norm_num

/-- Witness for C7 (amended): the scenario camera itself, with concrete valid
FOV, non-parallel forward/up and a 1920x1080 window. -/
theorem camera_frustum_properties_witness :
    (∃ f, ComputeCameraFrustum CameraState.default 1920 1080 = .ok f ∧
       f.nearDist < f.farDist ∧
       f.hExtent = 2 * Real.arctan (Real.tan (CameraState.default.mFOVY / 2) *
         (((1920 : ℤ) : ℝ) / ((1080 : ℤ) : ℝ)))) ∧
    (∃ f, ComputeCameraFrustum CameraState.default 1920 1080 = .ok f ∧
       |((1920 : ℝ) / 1080) - 1.778| ≤ 1 / 1000 ∧
       f.vExtent / 2 = DegreesToRadians 35) :=
  camera_frustum_properties CameraState.default 1920 1080 default_mFOVY_pos
    default_mFOVY_lt_pi default_forward_up_nonparallel (by norm_num) (by norm_num)

/-- C8: the configuration surface is constants with the documented defaults —
window 1920x1080, shadow map 4096, pipeline depth 2. -/
theorem configuration_constants :
    Renderer.GetWindowWidth Renderer.init = 1920 ∧
    Renderer.GetWindowHeight Renderer.init = 1080 ∧
    Renderer.cShadowMapSize = 4096 ∧
    Renderer.cFrameCount = 2 :=
  ⟨rfl, rfl, rfl, rfl⟩

/-- C9: the default-constructed CameraState has position zero, forward
(0,0,-1), up (0,1,0) and FOVY of 70 degrees converted to radians. -/
theorem camera_default_fields :
    CameraState.default.mPos = (0, 0, 0) ∧
    CameraState.default.mForward = (0, 0, -1) ∧
    CameraState.default.mUp = (0, 1, 0) ∧
    CameraState.default.mFOVY = DegreesToRadians 70 :=
  ⟨rfl, rfl, rfl, rfl⟩

/-- C10: a freshly constructed renderer is idle — in-frame flag false (so all
frame-scoped accessors fault), frame index 0, base offset zero and
perspective Y sign +1 (the DirectX convention). -/
theorem initial_state_idle :
    Renderer.init.mInFrame = false ∧
    Renderer.init.mFrameIndex = 0 ∧
    Renderer.init.mBaseOffset = (0, 0, 0) ∧
    Renderer.init.mPerspectiveYSign = 1 ∧
    Renderer.GetCameraState Renderer.init = .error .AssertionFailed ∧
    Renderer.GetCameraFrustum Renderer.init = .error .AssertionFailed ∧
    Renderer.GetLightFrustum Renderer.init = .error .AssertionFailed ∧
    Renderer.GetCurrentFrameIndex Renderer.init = .error .AssertionFailed :=
  ⟨rfl, rfl, rfl, rfl, rfl, rfl, rfl, rfl⟩
